import Mathlib

/-!
Verification of the `ria_remote` special-remote implementation
(`ria_remote/remote.py`): a shallow embedding of the key-size computation,
the layout resolver, the layout-version marker handling, and the protocol
handler operations (`transfer_store`, `transfer_retrieve`, `checkpresent`,
`remove`) over an explicit model of the local and SSH IO backends.

Paths (`pathlib.Path` values in the source) are modelled as lists of path
components; `p / q` becomes list append and `p.parent` becomes `dropLast`.
File contents are modelled as opaque `Nat` tokens.
-/

set_option autoImplicit false

/-- A filesystem path, as a list of components (`pathlib.Path` in the source). -/
abbrev RPath := List String

/-- Render a path the way `str(path)` would, for error messages. -/
def pathStr (p : RPath) : String := String.intercalate "/" p

/-- Errors raised by the embedded operations:
`remote` models `annexremote.RemoteError`, `notFound` models the
`FileNotFoundError`/`OSError` raised by local filesystem operations on a
missing target. -/
inductive Err where
  | remote : String → Err
  | notFound : RPath → Err
deriving DecidableEq, Repr

/-- The message text of an error (`str(e)` in the source). -/
def errStr : Err → String
  | .remote m => m
  | .notFound p => "No such file or directory: " ++ pathStr p

deriving instance DecidableEq for Except

/-- Result of a stateful operation: `ok` carries the post-state, `err`
carries the raised error together with the state at the moment of the
raise (Python exceptions do not roll state back). -/
inductive OpRes (σ : Type) where
  | ok : σ → OpRes σ
  | err : Err → σ → OpRes σ
deriving DecidableEq, Repr

/-! ## String helpers mirroring the Python string operations used -/

/-- Python `s[:n]` on a string. -/
def strTake (s : String) (n : Nat) : String := String.mk (s.toList.take n)

/-- Python `s[n:]` on a string. -/
def strDrop (s : String) (n : Nat) : String := String.mk (s.toList.drop n)

/-- Python `s.endswith('\n')`: the last character is a newline. -/
def strEndsWithNL (s : String) : Bool := s.toList.getLast? = some '\n'

/-- Python `s.strip()`: remove leading and trailing whitespace. -/
def pyStrip (s : String) : String :=
  String.mk (((s.toList.dropWhile Char.isWhitespace).reverse.dropWhile
    Char.isWhitespace).reverse)

/-- The numeric value of a digit string. -/
def digitsVal (cs : List Char) : Nat :=
  cs.foldl (fun n c => n * 10 + (c.toNat - '0'.toNat)) 0

/-- Python `int(t) if t.isdigit() else None`: `some` iff `t` is non-empty
and all digits. -/
def digitsToNat : List Char → Option Nat :=
  fun cs => if cs ≠ [] ∧ cs.all Char.isDigit then some (digitsVal cs) else none

/-! ## Key parsing (`SSHRemoteIO._get_download_size_from_key`, remote.py 270-317)

`key.split('--')[0]` is the part of the key before the first `--`;
that part is then split on `-` and the first field (the backend name)
is ignored. -/

/-- The characters before the first occurrence of `--`
(`key.split('--')[0]`). -/
def beforeDashDash : List Char → List Char
  | [] => []
  | '-' :: '-' :: _ => []
  | c :: rest => c :: beforeDashDash rest

/-- Python `str.split('-')`. -/
def splitDash : List Char → List (List Char)
  | [] => [[]]
  | '-' :: rest => [] :: splitDash rest
  | c :: rest =>
    match splitDash rest with
    | [] => [[c]]
    | t :: ts => (c :: t) :: ts

/-- The key fields scanned by `_get_download_size_from_key`:
`key.split('--')[0].split('-')[1:]`. -/
def keyFields (key : String) : List (List Char) :=
  (splitDash (beforeDashDash key.toList)).tail

/-- One pass of the field-scanning loop (remote.py 296-305): fields starting
with `s`, `S`, `C` set the size, chunk size and chunk number respectively;
a non-digit value sets the slot back to `none`; later fields win. -/
def scanField (acc : Option Nat × Option Nat × Option Nat) (field : List Char) :
    Option Nat × Option Nat × Option Nat :=
  match acc, field with
  | (_, Sv, Cv), 's' :: rest => (digitsToNat rest, Sv, Cv)
  | (sv, _, Cv), 'S' :: rest => (sv, digitsToNat rest, Cv)
  | (sv, Sv, _), 'C' :: rest => (sv, Sv, digitsToNat rest)
  | acc, _ => acc

/-- The `(s, S, C)` triple extracted from a key string
(remote.py 291-305). -/
def parseKeyFields (key : String) : Option Nat × Option Nat × Option Nat :=
  (keyFields key).foldl scanField (none, none, none)

/-- The decision logic of `_get_download_size_from_key` (remote.py 307-317),
after field extraction.  Python truthiness: `elif S and C` requires both to
be non-`None` and non-zero; `int(s / S)` is floor division for the
non-negative values involved. -/
def downloadSizeOf (key : String) :
    Option Nat × Option Nat × Option Nat → Except Err (Option Nat)
  | (none, _, _) => .ok none
  | (some s, none, none) => .ok (some s)
  | (some s, some Sn, some Cn) =>
    if Sn ≠ 0 ∧ Cn ≠ 0 then
      if Cn ≤ s / Sn then .ok (some Sn) else .ok (some (s % Sn))
    else .error (.remote ("invalid key: " ++ key))
  | (some _, _, _) => .error (.remote ("invalid key: " ++ key))

/-- `SSHRemoteIO._get_download_size_from_key` (remote.py 270-317): parse the
key, then compute the expected byte count of the object, `none` meaning
"size unknown, fall back to whole-file transfer". -/
def getDownloadSizeFromKey (key : String) : Except Err (Option Nat) :=
  downloadSizeOf key (parseKeyFields key)

/-! ## Layout resolver (remote.py 774-793) -/

/-- `RIARemote.get_layout_locations` (remote.py 774-781): the dataset git
directory, archive directory and annex object directory for a repository id
under a store base path. -/
def get_layout_locations (base_path : RPath) (dsid : String) :
    RPath × RPath × RPath :=
  let dsgit_dir := base_path ++ [strTake dsid 3, strDrop dsid 3]
  (dsgit_dir, dsgit_dir ++ ["archives"], dsgit_dir ++ ["annex", "objects"])

/-- The configuration state of a prepared `RIARemote` that the data
operations consult.  `dirhash` stands for the externally supplied
`annex.dirhash_lower` fan-out function. -/
structure RIAConfig where
  read_only : Bool
  objtree_base_path : RPath
  archive_id : String
  uuid : String
  dirhash : String → RPath

/-- The cached `remote_git_dir` (remote.py 679-680). -/
def remoteGitDir (cfg : RIAConfig) : RPath :=
  (get_layout_locations cfg.objtree_base_path cfg.archive_id).1

/-- The cached `remote_archive_dir` (remote.py 679-680). -/
def remoteArchiveDir (cfg : RIAConfig) : RPath :=
  (get_layout_locations cfg.objtree_base_path cfg.archive_id).2.1

/-- The cached `remote_obj_dir` (remote.py 679-680). -/
def remoteObjDir (cfg : RIAConfig) : RPath :=
  (get_layout_locations cfg.objtree_base_path cfg.archive_id).2.2

/-- The relative object path `dirhash_lower(key)/key/key` built by
`RIARemote._get_obj_location` (remote.py 788-791). -/
def relKeyPath (cfg : RIAConfig) (key : String) : RPath :=
  cfg.dirhash key ++ [key, key]

/-- The archive file path `remote_archive_dir / 'archive.7z'`
(remote.py 792). -/
def archivePath (cfg : RIAConfig) : RPath :=
  remoteArchiveDir cfg ++ ["archive.7z"]

/-- `RIARemote._get_obj_location` (remote.py 783-793). -/
def get_obj_location (cfg : RIAConfig) (key : String) : RPath × RPath × RPath :=
  (remoteObjDir cfg, archivePath cfg, relKeyPath cfg key)

/-- The absolute object path `dsobj_dir / key_path` as formed by the data
operations (remote.py 688, 714, 729, 746). -/
def absKeyPath (cfg : RIAConfig) (key : String) : RPath :=
  remoteObjDir cfg ++ relKeyPath cfg key

/-- The per-identity transfer staging directory
`remote_git_dir / ('ria-remote-' + uuid) / 'transfer'` (remote.py 695). -/
def transferDir (cfg : RIAConfig) : RPath :=
  remoteGitDir cfg ++ ["ria-remote-" ++ cfg.uuid, "transfer"]

/-- The staging file `transfer_dir / key` (remote.py 697). -/
def tmpPath (cfg : RIAConfig) (key : String) : RPath :=
  transferDir cfg ++ [key]

/-! ## IO backend interface (`IOBase`, remote.py 61-132)

Operations are state transformers over an abstract backend state `σ`.
`pexists` models `IOBase.exists` (neither implementation raises) and
`in_archive` models `IOBase.in_archive` (neither implementation raises:
the local variant returns `False` for a missing archive, the SSH variant
runs `7z l` unchecked and relies on the member path not appearing in the
failure output). -/
structure IOBase (σ : Type) where
  mkdir : RPath → σ → OpRes σ
  put : RPath → RPath → σ → OpRes σ
  get : RPath → RPath → σ → OpRes σ
  rename : RPath → RPath → σ → OpRes σ
  remove : RPath → σ → OpRes σ
  remove_dir : RPath → σ → OpRes σ
  pexists : RPath → σ → Bool
  in_archive : RPath → RPath → σ → Bool
  get_from_archive : RPath → RPath → RPath → σ → OpRes σ

/-- The read-only rejection message of `transfer_store` and `remove`
(remote.py 684-685, 742-743). -/
def readOnlyMsg : String :=
  "Remote was set to read-only. Configure 'ria-remote.<name>.force-write' to overrule this."

/-! ## Protocol handler operations (`RIARemote`, remote.py 682-756)

Each operation is parametrised by the backend `bk` (the prepared
`self.io`).  `transfer_store` additionally takes `pathEx`, the behaviour of
the *client-side* `pathlib.Path.exists` call in line 699: the source tests
`tmp_path.exists()` directly instead of going through `self.io`, so on the
SSH backend this consults the local filesystem of the machine running the
special remote, not the store. -/

/-- `RIARemote.transfer_store` (remote.py 682-710). -/
def transfer_store {σ : Type} (bk : IOBase σ) (pathEx : RPath → σ → Bool)
    (cfg : RIAConfig) (key : String) (filename : RPath) (s : σ) : OpRes σ :=
  if cfg.read_only then .err (.remote readOnlyMsg) s else
  match bk.mkdir (absKeyPath cfg key).dropLast s with
  | .err e s1 => .err e s1
  | .ok s1 =>
  match bk.mkdir (transferDir cfg) s1 with
  | .err e s2 => .err e s2
  | .ok s2 =>
  if pathEx (tmpPath cfg key) s2 then
    .err (.remote (pathStr filename ++ ": upload already in progress")) s2
  else
  match bk.put filename (tmpPath cfg key) s2 with
  | .ok s3 =>
    (match bk.rename (tmpPath cfg key) (absKeyPath cfg key) s3 with
     | .ok s4 => .ok s4
     | .err e s4 =>
       match bk.remove (tmpPath cfg key) s4 with
       | .ok s5 => .err (.remote (errStr e)) s5
       | .err e2 s5 => .err e2 s5)
  | .err e s3 =>
    match bk.remove (tmpPath cfg key) s3 with
    | .ok s4 => .err (.remote (errStr e)) s4
    | .err e2 s4 => .err e2 s4

/-- `RIARemote.transfer_retrieve` (remote.py 712-725): try a direct copy of
the object, fall back to archive extraction of the same relative member,
and raise an error naming both failures when both attempts fail. -/
def transfer_retrieve {σ : Type} (bk : IOBase σ) (cfg : RIAConfig)
    (key : String) (filename : RPath) (s : σ) : OpRes σ :=
  match bk.get (absKeyPath cfg key) filename s with
  | .ok s1 => .ok s1
  | .err e1 s1 =>
    match bk.get_from_archive (archivePath cfg) (relKeyPath cfg key) filename s1 with
    | .ok s2 => .ok s2
    | .err e2 s2 =>
      .err (.remote ("Failed to key: [" ++ errStr e1 ++ ", " ++ errStr e2 ++ "]")) s2

/-- `RIARemote.checkpresent` (remote.py 727-738): a direct object file wins;
otherwise the archive-membership check decides, with no archive-existence
probe in between. -/
def checkpresent {σ : Type} (bk : IOBase σ) (cfg : RIAConfig) (key : String)
    (s : σ) : Bool :=
  if bk.pexists (absKeyPath cfg key) s then true
  else bk.in_archive (archivePath cfg) (relKeyPath cfg key) s

/-- The bounded directory-cleanup loop of `RIARemote.remove`
(remote.py 749-756): walk up `n` parent levels, attempting `remove_dir` on
each, stopping at the first failure without raising. -/
def tryRemoveDirs {σ : Type} (bk : IOBase σ) : Nat → RPath → σ → σ
  | 0, _, s => s
  | n + 1, d, s =>
    match bk.remove_dir d.dropLast s with
    | .ok s' => tryRemoveDirs bk n d.dropLast s'
    | .err _ s' => s'

/-- `RIARemote.remove` (remote.py 740-756). -/
def rm_key {σ : Type} (bk : IOBase σ) (cfg : RIAConfig) (key : String)
    (s : σ) : OpRes σ :=
  if cfg.read_only then .err (.remote readOnlyMsg) s else
  match (if bk.pexists (absKeyPath cfg key) s
         then bk.remove (absKeyPath cfg key) s else .ok s) with
  | .err e s1 => .err e s1
  | .ok s1 => .ok (tryRemoveDirs bk 2 (absKeyPath cfg key) s1)

/-! ## Concrete filesystem model and the two backend instantiations -/

/-- A filesystem: a finite file map (content modelled as an opaque `Nat`
token), a set of directories, and the archives with their members and the
members' contents. -/
structure FS where
  files : List (RPath × Nat)
  dirs : List RPath
  archives : List (RPath × List (RPath × Nat))
deriving DecidableEq, Repr

/-- First-match lookup in a path-keyed association list. -/
def findFile {α : Type} : List (RPath × α) → RPath → Option α
  | [], _ => none
  | (q, c) :: rest, p => if q = p then some c else findFile rest p

/-- Overwrite/insert a file binding. -/
def setFile (p : RPath) (c : Nat) (files : List (RPath × Nat)) :
    List (RPath × Nat) :=
  (p, c) :: files.filter (fun e => e.1 ≠ p)

/-- Delete a file binding. -/
def delFile (p : RPath) (files : List (RPath × Nat)) : List (RPath × Nat) :=
  files.filter (fun e => e.1 ≠ p)

/-- All non-empty prefixes of a path: the directories created by
`mkdir(parents=True)`. -/
def pathInits (p : RPath) : List RPath :=
  (List.range p.length).map (fun n => p.take (n + 1))

/-- Insert a directory if not already present. -/
def insertDir (d : RPath) (ds : List RPath) : List RPath :=
  if d ∈ ds then ds else ds ++ [d]

/-- `mkdir -p`: record the directory and all its ancestors. -/
def addDirAll (p : RPath) (ds : List RPath) : List RPath :=
  (pathInits p).foldl (fun acc d => insertDir d acc) ds

/-- `path.exists()` on a filesystem: a file or a directory is there. -/
def fsExists (s : FS) (p : RPath) : Bool :=
  (findFile s.files p).isSome || s.dirs.contains p

/-- A directory is empty: no file below it and no other directory strictly
below it. -/
def dirEmpty (s : FS) (p : RPath) : Bool :=
  s.files.all (fun e => !(p.isPrefixOf e.1)) &&
  s.dirs.all (fun d => !(p.isPrefixOf d && d ≠ p))

/-- `LocalIO` (remote.py 135-201): everything operates on the one local
filesystem.
- `mkdir` uses `parents=True, exist_ok=True` and does not fail;
- `put`/`get` are `shutil.copy`: a missing source or a missing destination
  directory raises `FileNotFoundError`;
- `rename` is `Path.rename`: missing source or missing destination
  directory raises, an existing destination file is replaced;
- `remove` is `Path.unlink`: raises on a missing file;
- `remove_dir` is `Path.rmdir`: raises on a missing or non-empty directory;
- `in_archive` returns `False` for a missing archive (remote.py 177-179),
  otherwise membership via `7z l`;
- `get_from_archive` runs `7z x -so` through `subprocess.run` *without*
  `check=True` (remote.py 155-162), so it never raises: on a missing archive
  or member the destination file is simply created from whatever `7z`
  printed (modelled as the empty content token `0`). -/
def localModel : IOBase FS where
  mkdir p s := .ok { s with dirs := addDirAll p s.dirs }
  put src dst s :=
    match findFile s.files src with
    | none => .err (.notFound src) s
    | some c =>
      if s.dirs.contains dst.dropLast then
        .ok { s with files := setFile dst c s.files }
      else .err (.notFound dst.dropLast) s
  get src dst s :=
    match findFile s.files src with
    | none => .err (.notFound src) s
    | some c =>
      if s.dirs.contains dst.dropLast then
        .ok { s with files := setFile dst c s.files }
      else .err (.notFound dst.dropLast) s
  rename src dst s :=
    match findFile s.files src with
    | none => .err (.notFound src) s
    | some c =>
      if s.dirs.contains dst.dropLast then
        .ok { s with files := setFile dst c (delFile src s.files) }
      else .err (.notFound dst.dropLast) s
  remove p s :=
    match findFile s.files p with
    | none => .err (.notFound p) s
    | some _ => .ok { s with files := delFile p s.files }
  remove_dir p s :=
    if s.dirs.contains p ∧ dirEmpty s p then
      .ok { s with dirs := s.dirs.filter (fun d => d ≠ p) }
    else .err (.notFound p) s
  pexists p s := fsExists s p
  in_archive arch p s :=
    match findFile s.archives arch with
    | none => false
    | some members => (findFile members p).isSome
  get_from_archive arch src dst s :=
    let c :=
      match findFile s.archives arch with
      | some members => (findFile members src).getD 0
      | none => 0
    .ok { s with files := setFile dst c s.files }

/-- The `pathlib.Path.exists` behaviour seen by a handler running against a
local store: the same filesystem the backend operates on. -/
def localPathEx (p : RPath) (s : FS) : Bool := fsExists s p

/-- The state a handler with an `SSHRemoteIO` backend acts on: the client
machine running the special remote, and the remote store host. -/
structure SshState where
  client : FS
  remote : FS
deriving DecidableEq, Repr

/-- `SSHRemoteIO` (remote.py 208-464), as observable through the persistent
shell protocol:
- `mkdir` runs `mkdir -p` on the remote (failures only reach stderr, so
  `_run` with `no_output=True` does not raise);
- `put` is `self.ssh.put` (scp): raises when the client-side source is
  missing, overwrites an existing remote destination;
- `rename` runs `mv`: a failure prints to stderr only, so `_run` collects
  just the FAIL sentinel and raises nothing — a failed `mv` is silent
  (remote.py 390-391 with 319-347);
- `remove` runs `rm`: silent on failure for the same reason;
- `remove_dir` runs `rmdir`: silent on failure for the same reason;
- `pexists` runs `test -e` with `check=True` and catches the sentinel
  failure, returning a boolean;
- `in_archive` runs `7z l` unchecked and relies on the member path not
  appearing in the output on failure (remote.py 406-418), so a missing
  archive yields `false`;
- `get` (`cat` sized by the key) raises only through the size computation;
  a readable remote file is streamed to the client destination. -/
def sshModel : IOBase SshState where
  mkdir p s := .ok { s with remote := { s.remote with dirs := addDirAll p s.remote.dirs } }
  put src dst s :=
    match findFile s.client.files src with
    | none => .err (.remote ("put failed: " ++ pathStr src)) s
    | some c =>
      if s.remote.dirs.contains dst.dropLast then
        .ok { s with remote := { s.remote with files := setFile dst c s.remote.files } }
      else .err (.remote ("put failed: " ++ pathStr dst)) s
  get src dst s :=
    match findFile s.remote.files src with
    | none => .err (.remote ("get failed: " ++ pathStr src)) s
    | some c =>
      .ok { s with client := { s.client with files := setFile dst c s.client.files } }
  rename src dst s :=
    match findFile s.remote.files src with
    | none => .ok s
    | some c =>
      .ok { s with remote :=
        { s.remote with files := setFile dst c (delFile src s.remote.files) } }
  remove p s :=
    .ok { s with remote := { s.remote with files := delFile p s.remote.files } }
  remove_dir p s :=
    if s.remote.dirs.contains p ∧ dirEmpty s.remote p then
      .ok { s with remote := { s.remote with dirs := s.remote.dirs.filter (fun d => d ≠ p) } }
    else .ok s
  pexists p s := fsExists s.remote p
  in_archive arch p s :=
    match findFile s.remote.archives arch with
    | none => false
    | some members => (findFile members p).isSome
  get_from_archive arch src dst s :=
    match findFile s.remote.archives arch with
    | none => .err (.remote ("archive failed: " ++ pathStr arch)) s
    | some members =>
      match findFile members src with
      | none => .err (.remote ("member failed: " ++ pathStr src)) s
      | some c =>
        .ok { s with client := { s.client with files := setFile dst c s.client.files } }

/-- The `pathlib.Path.exists` behaviour seen by a handler whose backend is
`SSHRemoteIO`: `tmp_path.exists()` (remote.py 699) consults the *client*
filesystem, not the store on the remote host. -/
def sshPathEx (p : RPath) (s : SshState) : Bool := fsExists s.client p

/-! ## Layout-version marker file content (remote.py 198-201, 455-464,
597-615) -/

/-- `RIARemote._dataset_tree_version` (remote.py 471). -/
def dataset_tree_version : String := "1"

/-- `RIARemote._object_tree_version` (remote.py 472). -/
def object_tree_version : String := "1"

/-- The file content produced by `LocalIO.write_file` (remote.py 198-201):
the string is written verbatim, nothing is appended. -/
def localWriteFile (content : String) : String := content

/-- The file content produced by `SSHRemoteIO.write_file` (remote.py
455-464): a newline is appended when the content does not end in one, and
the resulting text is written with `echo "..." > file`, whose output ends
in one more newline. -/
def sshWriteFile (content : String) : String :=
  (if strEndsWithNL content then content else content ++ "\n") ++ "\n"

/-- The comparison performed by `RIARemote._check_layout_version`
(remote.py 599-600, 629-630): the marker file content is stripped before
being compared with the supported version. -/
def markerMatches (fileContent expected : String) : Bool :=
  pyStrip fileContent == expected

/-! ## Spec-side layout definitions, for the refinement claim C8 -/

/-- Modelled from the spec: the dataset directory
`base/<id[0:3]>/<id[3:]>`. -/
def specDatasetDir (base : RPath) (id : String) : RPath :=
  base ++ [strTake id 3, strDrop id 3]

/-- Modelled from the spec: objects live under the dataset directory's
`annex/objects` subtree at `<fanout>/<key>/<key>`. -/
def specObjectAbsPath (base : RPath) (id : String) (fan : RPath)
    (key : String) : RPath :=
  specDatasetDir base id ++ ["annex", "objects"] ++ fan ++ [key, key]

/-- Modelled from the spec: the archive is always at
`base/<id[0:3]>/<id[3:]>/archives/archive.7z`. -/
def specArchiveFilePath (base : RPath) (id : String) : RPath :=
  specDatasetDir base id ++ ["archives", "archive.7z"]

/-! ## Projections and concrete fixtures used by the theorems -/

/-- The state carried by an operation result. -/
def resState {σ : Type} : OpRes σ → σ
  | .ok s => s
  | .err _ s => s

/-- Did the operation succeed? -/
def isOkRes {σ : Type} : OpRes σ → Bool
  | .ok _ => true
  | .err _ _ => false

/-- The error carried by a failed operation result. -/
def resErr {σ : Type} : OpRes σ → Option Err
  | .ok _ => none
  | .err e _ => some e

/-- A prepared read-write configuration. -/
def cfgRW : RIAConfig :=
  { read_only := false, objtree_base_path := ["store"], archive_id := "abc123",
    uuid := "u1", dirhash := fun _ => ["f5", "7a"] }

/-- The same configuration after the layout version gate set read-only. -/
def cfgRO : RIAConfig :=
  { read_only := true, objtree_base_path := ["store"], archive_id := "abc123",
    uuid := "u1", dirhash := fun _ => ["f5", "7a"] }

/-- An empty filesystem. -/
def fs0 : FS := { files := [], dirs := [], archives := [] }

/-- An empty client/remote pair. -/
def css0 : SshState := { client := fs0, remote := fs0 }

/-- An SSH-backend state in which another worker's upload of `KEY1` is
already staged on the remote store (content token `7`), while the client
holds the source file `home/f` (content token `9`). -/
def sshBusy : SshState :=
  { client := { files := [(["home", "f"], 9)], dirs := [["home"]], archives := [] },
    remote := { files := [(tmpPath cfgRW "KEY1", 7)], dirs := [], archives := [] } }

/-- A trivially succeeding backend over the one-point state, used by
witnesses of the backend-generic theorems. -/
def okUnitModel : IOBase Unit where
  mkdir _ _ := .ok ()
  put _ _ _ := .ok ()
  get _ _ _ := .ok ()
  rename _ _ _ := .ok ()
  remove _ _ := .ok ()
  remove_dir _ _ := .ok ()
  pexists _ _ := false
  in_archive _ _ _ := false
  get_from_archive _ _ _ _ := .ok ()

/-- A backend over the one-point state whose transfer operations fail, used
by witnesses of the backend-generic theorems. -/
def failUnitModel : IOBase Unit where
  mkdir _ _ := .ok ()
  put _ _ _ := .err (.remote "put boom") ()
  get _ _ _ := .err (.remote "get boom") ()
  rename _ _ _ := .err (.remote "mv boom") ()
  remove _ _ := .err (.remote "rm boom") ()
  remove_dir _ _ := .err (.remote "rmdir boom") ()
  pexists _ _ := false
  in_archive _ _ _ := false
  get_from_archive _ _ _ _ := .err (.remote "7z boom") ()

/-- A client-side `Path.exists` that finds nothing, for the one-point
state. -/
def unitPathEx : RPath → Unit → Bool := fun _ _ => false

/-! ## Theorems -/

/-- C1, counterexample: for the key `MD5-s10-S3-C3--hash` we have
`s = 10`, `S = 3`, `C = 3 = floor(s/S)`, yet the computed chunk size is
`S = 3` and not `s mod S = 1` as the claim demands for `C == floor(s/S)`. -/
theorem C1_chunk_size_counterexample :
    parseKeyFields "MD5-s10-S3-C3--hash" = (some 10, some 3, some 3) ∧
    (10 : Nat) / 3 = 3 ∧ (10 : Nat) % 3 = 1 ∧
    getDownloadSizeFromKey "MD5-s10-S3-C3--hash" = .ok (some 3) ∧
    getDownloadSizeFromKey "MD5-s10-S3-C3--hash" ≠ .ok (some (10 % 3)) := by
  refine ⟨by decide, by decide, by decide, by rfl, by decide⟩

/-- C1, amended: for a key carrying size `s`, chunk size `S ≠ 0` and chunk
index `C ≠ 0`, the computed chunk byte length is `S` whenever
`C ≤ floor(s/S)` (chunk indices are 1-based, so this includes the boundary
index) and `s mod S` whenever `C > floor(s/S)`. -/
theorem C1_chunk_size_amended (key : String) (s Sn Cn : Nat)
    (hparse : parseKeyFields key = (some s, some Sn, some Cn))
    (hS : Sn ≠ 0) (hC : Cn ≠ 0) :
    (Cn ≤ s / Sn → getDownloadSizeFromKey key = .ok (some Sn)) ∧
    (s / Sn < Cn → getDownloadSizeFromKey key = .ok (some (s % Sn))) := by
  have hres : getDownloadSizeFromKey key =
      (if Cn ≤ s / Sn then Except.ok (some Sn) else Except.ok (some (s % Sn))) := by
    unfold getDownloadSizeFromKey
    rw [hparse]
    simp [downloadSizeOf, hS, hC]
  constructor
  · intro h; rw [hres, if_pos h]
  · intro h; rw [hres, if_neg (Nat.not_le.mpr h)]

/-- C1, witness: a full chunk (`C = 2 ≤ floor(10/3)`) computes to `S = 3`
and a trailing chunk (`C = 4 > floor(10/3)`) computes to `s mod S = 1`. -/
theorem C1_chunk_size_witness :
    getDownloadSizeFromKey "MD5-s10-S3-C2--hash" = .ok (some 3) ∧
    getDownloadSizeFromKey "MD5-s10-S3-C4--hash" = .ok (some 1) :=
  ⟨(C1_chunk_size_amended "MD5-s10-S3-C2--hash" 10 3 2 (by decide) (by decide)
      (by decide)).1 (by decide),
   (C1_chunk_size_amended "MD5-s10-S3-C4--hash" 10 3 4 (by decide) (by decide)
      (by decide)).2 (by decide)⟩

/-- C10: when the size field `s` is absent the computation returns `none`
(whole-file fallback) regardless of `S` and `C`; with `s` alone it returns
`s`; when exactly one of `S` and `C` is present, or either is zero, it
raises the "invalid key" error. -/
theorem C10_size_cases :
    (∀ key Sv Cv, parseKeyFields key = (none, Sv, Cv) →
      getDownloadSizeFromKey key = .ok none) ∧
    (∀ key s, parseKeyFields key = (some s, none, none) →
      getDownloadSizeFromKey key = .ok (some s)) ∧
    (∀ key s Sn Cn, parseKeyFields key = (some s, some Sn, some Cn) →
      Sn = 0 ∨ Cn = 0 →
      getDownloadSizeFromKey key = .error (.remote ("invalid key: " ++ key))) ∧
    (∀ key s Cn, parseKeyFields key = (some s, none, some Cn) →
      getDownloadSizeFromKey key = .error (.remote ("invalid key: " ++ key))) ∧
    (∀ key s Sn, parseKeyFields key = (some s, some Sn, none) →
      getDownloadSizeFromKey key = .error (.remote ("invalid key: " ++ key))) := by
  refine ⟨?_, ?_, ?_, ?_, ?_⟩
  · intro key Sv Cv h
    unfold getDownloadSizeFromKey; rw [h]; rfl
  · intro key s h
    unfold getDownloadSizeFromKey; rw [h]; rfl
  · intro key s Sn Cn h h0
    unfold getDownloadSizeFromKey; rw [h]
    rcases h0 with h0 | h0 <;> subst h0 <;> simp [downloadSizeOf]
  · intro key s Cn h
    unfold getDownloadSizeFromKey; rw [h]; rfl
  · intro key s Sn h
    unfold getDownloadSizeFromKey; rw [h]; rfl

/-- C10, witness: the five cases at concrete keys — size absent, size
alone, chunk size zero, chunk index without chunk size, chunk size without
chunk index. -/
theorem C10_size_cases_witness :
    getDownloadSizeFromKey "MD5-S3-C1--hash" = .ok none ∧
    getDownloadSizeFromKey "MD5-s10--hash" = .ok (some 10) ∧
    getDownloadSizeFromKey "MD5-s10-S0-C2--hash" =
      .error (.remote "invalid key: MD5-s10-S0-C2--hash") ∧
    getDownloadSizeFromKey "MD5-s10-C2--hash" =
      .error (.remote "invalid key: MD5-s10-C2--hash") ∧
    getDownloadSizeFromKey "MD5-s10-S3--hash" =
      .error (.remote "invalid key: MD5-s10-S3--hash") :=
  ⟨C10_size_cases.1 "MD5-S3-C1--hash" (some 3) (some 1) (by decide),
   C10_size_cases.2.1 "MD5-s10--hash" 10 (by decide),
   C10_size_cases.2.2.1 "MD5-s10-S0-C2--hash" 10 0 2 (by decide) (Or.inl rfl),
   C10_size_cases.2.2.2.1 "MD5-s10-C2--hash" 10 2 (by decide),
   C10_size_cases.2.2.2.2 "MD5-s10-S3--hash" 10 3 (by decide)⟩

/-- C8: the layout functions are pure (two calls agree definitionally) and
produce exactly the on-disk paths the spec prescribes: dataset directory
`base/<id[0:3]>/<id[3:]>`, objects at `annex/objects/<fanout>/<key>/<key>`
below it, and the archive at `.../archives/archive.7z`. -/
theorem C8_layout_paths (cfg : RIAConfig) (key : String) :
    get_layout_locations cfg.objtree_base_path cfg.archive_id =
      get_layout_locations cfg.objtree_base_path cfg.archive_id ∧
    remoteGitDir cfg = specDatasetDir cfg.objtree_base_path cfg.archive_id ∧
    absKeyPath cfg key =
      specObjectAbsPath cfg.objtree_base_path cfg.archive_id (cfg.dirhash key) key ∧
    archivePath cfg = specArchiveFilePath cfg.objtree_base_path cfg.archive_id ∧
    get_obj_location cfg key = (remoteObjDir cfg, archivePath cfg, relKeyPath cfg key) := by
  refine ⟨rfl, rfl, ?_, ?_, rfl⟩ <;>
    simp [absKeyPath, remoteObjDir, relKeyPath, archivePath, remoteArchiveDir,
      get_layout_locations, specObjectAbsPath, specArchiveFilePath, specDatasetDir,
      List.append_assoc]

/-- C9, counterexample: the local backend writes the layout version marker
verbatim — writing version `1` produces the file content `1` with *no*
trailing newline — and the remote-shell backend produces `1\n\n`, the value
followed by two newlines, not a single line with one trailing newline. -/
theorem C9_marker_counterexample :
    localWriteFile dataset_tree_version = "1" ∧
    strEndsWithNL (localWriteFile dataset_tree_version) = false ∧
    sshWriteFile dataset_tree_version = "1\n\n" := by
  refine ⟨rfl, by decide, by decide⟩

/-- C9, amended: for the version strings the program writes, the local
backend stores the string verbatim with no trailing newline, the
remote-shell backend stores it with a newline appended by `write_file` plus
one more added by the shell `echo`; on read the value is compared after
stripping, which accepts both forms. -/
theorem C9_marker_amended (v : String)
    (hv : v = dataset_tree_version ∨ v = object_tree_version) :
    localWriteFile v = v ∧
    strEndsWithNL (localWriteFile v) = false ∧
    sshWriteFile v = v ++ "\n\n" ∧
    markerMatches (localWriteFile v) v = true ∧
    markerMatches (sshWriteFile v) v = true := by
  rcases hv with h | h <;> subst h <;>
    exact ⟨rfl, by decide, by decide, by decide, by decide⟩

/-- C9, witness: instantiation at the dataset tree version string `1`. -/
theorem C9_marker_witness :
    localWriteFile "1" = "1" ∧
    strEndsWithNL (localWriteFile "1") = false ∧
    sshWriteFile "1" = "1" ++ "\n\n" ∧
    markerMatches (localWriteFile "1") "1" = true ∧
    markerMatches (sshWriteFile "1") "1" = true :=
  C9_marker_amended "1" (Or.inl rfl)

/-- Helper: the local `rmdir` never touches the file map, whether it
succeeds or fails. -/
theorem localModel_remove_dir_files (p : RPath) (s : FS) :
    (resState (localModel.remove_dir p s)).files = s.files := by
  simp only [localModel]
  split <;> rfl

/-- Helper: the bounded directory-cleanup loop over the local backend never
touches the file map. -/
theorem tryRemoveDirs_local_files (n : Nat) (d : RPath) (s : FS) :
    (tryRemoveDirs localModel n d s).files = s.files := by
  induction n generalizing d s with
  | zero => rfl
  | succ n ih =>
    have hfiles := localModel_remove_dir_files d.dropLast s
    simp only [tryRemoveDirs]
    cases h : localModel.remove_dir d.dropLast s with
    | ok s' =>
      rw [ih]
      rw [h] at hfiles
      exact hfiles
    | err e s' =>
      rw [h] at hfiles
      exact hfiles

/-- C2: once the layout version gate has set the read-only flag, both
`transfer_store` and `remove` fail immediately with the read-only
`RemoteError`, and — for every conceivable backend behaviour — the state is
exactly the initial one: no directory is created and no file is copied,
renamed or deleted. -/
theorem C2_read_only_rejects (σ : Type) (bk : IOBase σ)
    (pathEx : RPath → σ → Bool) (cfg : RIAConfig) (key : String)
    (filename : RPath) (s : σ) (h : cfg.read_only = true) :
    transfer_store bk pathEx cfg key filename s = .err (.remote readOnlyMsg) s ∧
    rm_key bk cfg key s = .err (.remote readOnlyMsg) s := by
  constructor <;> simp [transfer_store, rm_key, h]

/-- C2, witness: the read-only configuration over the local backend on an
empty store. -/
theorem C2_read_only_rejects_witness :
    transfer_store localModel localPathEx cfgRO "KEY1" ["tmp", "f"] fs0 =
      .err (.remote readOnlyMsg) fs0 ∧
    rm_key localModel cfgRO "KEY1" fs0 = .err (.remote readOnlyMsg) fs0 :=
  C2_read_only_rejects FS localModel localPathEx cfgRO "KEY1" ["tmp", "f"] fs0 rfl

/-- C3, code bug: on the SSH backend the staging-occupied check
(`tmp_path.exists()`, remote.py 699) consults the client-side filesystem,
not the remote store, so a staging file already present on the store is not
detected: `transfer_store` does not raise the "upload already in progress"
error; it overwrites the staged file and completes, clobbering the
in-progress upload (content token `7` is replaced by `9`). -/
theorem C3_ssh_staging_check_bypassed :
    findFile sshBusy.remote.files (tmpPath cfgRW "KEY1") = some 7 ∧
    fsExists sshBusy.client (tmpPath cfgRW "KEY1") = false ∧
    isOkRes (transfer_store sshModel sshPathEx cfgRW "KEY1" ["home", "f"] sshBusy)
      = true ∧
    findFile (resState (transfer_store sshModel sshPathEx cfgRW "KEY1" ["home", "f"]
      sshBusy)).remote.files (absKeyPath cfgRW "KEY1") = some 9 ∧
    findFile (resState (transfer_store sshModel sshPathEx cfgRW "KEY1" ["home", "f"]
      sshBusy)).remote.files (tmpPath cfgRW "KEY1") = none := by
  refine ⟨by decide, by decide, by decide, by decide, by decide⟩

/-- C4, counterexample: with the local backend and a missing source file,
the staging copy fails before creating the staging file; the unguarded
cleanup `self.io.remove(tmp_path)` (remote.py 709) then raises
`FileNotFoundError` for the staging path, and that cleanup error propagates
*instead of* the original error — the result is the raw `notFound` for the
staging path, not a `RemoteError` wrapping the original diagnostic. -/
theorem C4_cleanup_masks_error :
    resErr (transfer_store localModel localPathEx cfgRW "KEY1" ["tmp", "payload"] fs0)
      = some (.notFound (tmpPath cfgRW "KEY1")) ∧
    (resState (transfer_store localModel localPathEx cfgRW "KEY1" ["tmp", "payload"]
      fs0)).files = fs0.files ∧
    Err.notFound (tmpPath cfgRW "KEY1") ≠
      Err.remote (errStr (.notFound ["tmp", "payload"])) := by
  refine ⟨by decide, by decide, by decide⟩

/-- C4, amended: on any failure during the staging copy or the final
rename, `transfer_store` attempts to delete the staging file; when that
deletion succeeds the original error propagates wrapped in a `RemoteError`,
but when the deletion itself fails, the deletion's own error propagates
instead of (masking) the original; when copy and rename both succeed the
object appears at the final path through the atomic rename. -/
theorem C4_cleanup_amended (σ : Type) (bk : IOBase σ)
    (pathEx : RPath → σ → Bool) (cfg : RIAConfig) (key : String)
    (filename : RPath) (s s1 s2 : σ)
    (hro : cfg.read_only = false)
    (h1 : bk.mkdir (absKeyPath cfg key).dropLast s = .ok s1)
    (h2 : bk.mkdir (transferDir cfg) s1 = .ok s2)
    (h3 : pathEx (tmpPath cfg key) s2 = false) :
    (∀ s3 s4, bk.put filename (tmpPath cfg key) s2 = .ok s3 →
      bk.rename (tmpPath cfg key) (absKeyPath cfg key) s3 = .ok s4 →
      transfer_store bk pathEx cfg key filename s = .ok s4) ∧
    (∀ s3 e s4 s5, bk.put filename (tmpPath cfg key) s2 = .ok s3 →
      bk.rename (tmpPath cfg key) (absKeyPath cfg key) s3 = .err e s4 →
      bk.remove (tmpPath cfg key) s4 = .ok s5 →
      transfer_store bk pathEx cfg key filename s = .err (.remote (errStr e)) s5) ∧
    (∀ e s3 s4, bk.put filename (tmpPath cfg key) s2 = .err e s3 →
      bk.remove (tmpPath cfg key) s3 = .ok s4 →
      transfer_store bk pathEx cfg key filename s = .err (.remote (errStr e)) s4) ∧
    (∀ s3 e s4 e2 s5, bk.put filename (tmpPath cfg key) s2 = .ok s3 →
      bk.rename (tmpPath cfg key) (absKeyPath cfg key) s3 = .err e s4 →
      bk.remove (tmpPath cfg key) s4 = .err e2 s5 →
      transfer_store bk pathEx cfg key filename s = .err e2 s5) ∧
    (∀ e s3 e2 s4, bk.put filename (tmpPath cfg key) s2 = .err e s3 →
      bk.remove (tmpPath cfg key) s3 = .err e2 s4 →
      transfer_store bk pathEx cfg key filename s = .err e2 s4) := by
  refine ⟨?_, ?_, ?_, ?_, ?_⟩
  · intro s3 s4 hput hren
    simp [transfer_store, hro, h1, h2, h3, hput, hren]
  · intro s3 e s4 s5 hput hren hrm
    simp [transfer_store, hro, h1, h2, h3, hput, hren, hrm]
  · intro e s3 s4 hput hrm
    simp [transfer_store, hro, h1, h2, h3, hput, hrm]
  · intro s3 e s4 e2 s5 hput hren hrm
    simp [transfer_store, hro, h1, h2, h3, hput, hren, hrm]
  · intro e s3 e2 s4 hput hrm
    simp [transfer_store, hro, h1, h2, h3, hput, hrm]

/-- C4, witness: the all-succeeding backend stores cleanly; the
all-failing backend surfaces the cleanup error `rm boom` in place of the
original `put boom`. -/
theorem C4_cleanup_witness :
    transfer_store okUnitModel unitPathEx cfgRW "KEY1" ["f"] () = .ok () ∧
    transfer_store failUnitModel unitPathEx cfgRW "KEY1" ["f"] () =
      .err (.remote "rm boom") () :=
  ⟨(C4_cleanup_amended Unit okUnitModel unitPathEx cfgRW "KEY1" ["f"] () () ()
      rfl rfl rfl rfl).1 () () rfl rfl,
   (C4_cleanup_amended Unit failUnitModel unitPathEx cfgRW "KEY1" ["f"] () () ()
      rfl rfl rfl rfl).2.2.2.2 (.remote "put boom") () (.remote "rm boom") ()
      rfl rfl⟩

/-- C5: `transfer_retrieve` first attempts the direct copy from the object
tree; only when that fails does it attempt extraction of the very same
relative member path from the archive; when both fail it raises a single
error whose message names both underlying causes. -/
theorem C5_retrieve_fallback (σ : Type) (bk : IOBase σ) (cfg : RIAConfig)
    (key : String) (filename : RPath) (s : σ) :
    absKeyPath cfg key = remoteObjDir cfg ++ relKeyPath cfg key ∧
    (∀ s1, bk.get (absKeyPath cfg key) filename s = .ok s1 →
      transfer_retrieve bk cfg key filename s = .ok s1) ∧
    (∀ e1 s1 s2, bk.get (absKeyPath cfg key) filename s = .err e1 s1 →
      bk.get_from_archive (archivePath cfg) (relKeyPath cfg key) filename s1 = .ok s2 →
      transfer_retrieve bk cfg key filename s = .ok s2) ∧
    (∀ e1 s1 e2 s2, bk.get (absKeyPath cfg key) filename s = .err e1 s1 →
      bk.get_from_archive (archivePath cfg) (relKeyPath cfg key) filename s1 = .err e2 s2 →
      transfer_retrieve bk cfg key filename s =
        .err (.remote ("Failed to key: [" ++ errStr e1 ++ ", " ++ errStr e2 ++ "]")) s2) := by
  refine ⟨rfl, ?_, ?_, ?_⟩
  · intro s1 h
    simp [transfer_retrieve, h]
  · intro e1 s1 s2 h1 h2
    simp [transfer_retrieve, h1, h2]
  · intro e1 s1 e2 s2 h1 h2
    simp [transfer_retrieve, h1, h2]

/-- C5, witness: a succeeding direct copy retrieves directly, and a doubly
failing backend produces the combined two-cause error message. -/
theorem C5_retrieve_fallback_witness :
    transfer_retrieve okUnitModel cfgRW "KEY1" ["dst"] () = .ok () ∧
    transfer_retrieve failUnitModel cfgRW "KEY1" ["dst"] () =
      .err (.remote "Failed to key: [get boom, 7z boom]") () :=
  ⟨(C5_retrieve_fallback Unit okUnitModel cfgRW "KEY1" ["dst"] ()).2.1 () rfl,
   (C5_retrieve_fallback Unit failUnitModel cfgRW "KEY1" ["dst"] ()).2.2.2
      (.remote "get boom") () (.remote "7z boom") () rfl rfl⟩

/-- C6: `checkpresent` returns true exactly when the direct object file
exists, or else whatever the archive-membership check reports; the handler
performs no separate archive-existence probe, and on the SSH backend a
missing archive makes the membership check report absence (`false`) rather
than fail. -/
theorem C6_checkpresent_fallback (σ : Type) (bk : IOBase σ) (cfg : RIAConfig)
    (key : String) (s : σ) (cs : SshState)
    (harch : findFile cs.remote.archives (archivePath cfg) = none) :
    checkpresent bk cfg key s =
      (bk.pexists (absKeyPath cfg key) s ||
        bk.in_archive (archivePath cfg) (relKeyPath cfg key) s) ∧
    sshModel.in_archive (archivePath cfg) (relKeyPath cfg key) cs = false ∧
    checkpresent sshModel cfg key cs = fsExists cs.remote (absKeyPath cfg key) := by
  refine ⟨?_, ?_, ?_⟩
  · cases h : bk.pexists (absKeyPath cfg key) s <;> simp [checkpresent, h]
  · simp [sshModel, harch]
  · cases h : fsExists cs.remote (absKeyPath cfg key) <;>
      simp [checkpresent, sshModel, h, harch]

/-- C6, witness: instantiation on the one-point backend and an SSH state
with no archive on the remote store. -/
theorem C6_checkpresent_fallback_witness :
    checkpresent okUnitModel cfgRW "KEY1" () =
      (okUnitModel.pexists (absKeyPath cfgRW "KEY1") () ||
        okUnitModel.in_archive (archivePath cfgRW) (relKeyPath cfgRW "KEY1") ()) ∧
    sshModel.in_archive (archivePath cfgRW) (relKeyPath cfgRW "KEY1") css0 = false ∧
    checkpresent sshModel cfgRW "KEY1" css0 =
      fsExists css0.remote (absKeyPath cfgRW "KEY1") :=
  C6_checkpresent_fallback Unit okUnitModel cfgRW "KEY1" () css0 rfl

/-- C7: `remove` on an already-absent key succeeds without error and, on
the local backend, deletes no file; the cleanup walks up at most two levels
of ancestor directories, stopping silently at the first `remove_dir`
failure. -/
theorem C7_remove_idempotent :
    (∀ (σ : Type) (bk : IOBase σ) (cfg : RIAConfig) (key : String) (s : σ),
      cfg.read_only = false →
      bk.pexists (absKeyPath cfg key) s = false →
      rm_key bk cfg key s = .ok (tryRemoveDirs bk 2 (absKeyPath cfg key) s)) ∧
    (∀ (σ : Type) (bk : IOBase σ) (d : RPath) (s : σ) (e : Err) (s1 : σ),
      bk.remove_dir d.dropLast s = .err e s1 →
      tryRemoveDirs bk 2 d s = s1) ∧
    (∀ (σ : Type) (bk : IOBase σ) (d : RPath) (s s1 : σ),
      bk.remove_dir d.dropLast s = .ok s1 →
      tryRemoveDirs bk 2 d s = resState (bk.remove_dir d.dropLast.dropLast s1)) ∧
    (∀ (cfg : RIAConfig) (key : String) (fs : FS),
      cfg.read_only = false →
      fsExists fs (absKeyPath cfg key) = false →
      ∃ fs' : FS, rm_key localModel cfg key fs = .ok fs' ∧ fs'.files = fs.files) := by
  refine ⟨?_, ?_, ?_, ?_⟩
  · intro σ bk cfg key s hro hpe
    simp [rm_key, hro, hpe]
  · intro σ bk d s e s1 h
    simp [tryRemoveDirs, h]
  · intro σ bk d s s1 h
    cases h2 : bk.remove_dir d.dropLast.dropLast s1 <;>
      simp [tryRemoveDirs, h, h2, resState]
  · intro cfg key fs hro hpe
    refine ⟨tryRemoveDirs localModel 2 (absKeyPath cfg key) fs, ?_,
      tryRemoveDirs_local_files 2 (absKeyPath cfg key) fs⟩
    have hpe' : localModel.pexists (absKeyPath cfg key) fs = false := hpe
    simp [rm_key, hro, hpe']

/-- C7, witness: removing a key from an empty local store succeeds without
error and leaves the (empty) file map unchanged. -/
theorem C7_remove_idempotent_witness :
    rm_key localModel cfgRW "KEY1" fs0 =
      .ok (tryRemoveDirs localModel 2 (absKeyPath cfgRW "KEY1") fs0) ∧
    (∃ fs' : FS, rm_key localModel cfgRW "KEY1" fs0 = .ok fs' ∧
      fs'.files = fs0.files) ∧
    tryRemoveDirs localModel 2 (absKeyPath cfgRW "KEY1") fs0 = fs0 :=
  ⟨C7_remove_idempotent.1 FS localModel cfgRW "KEY1" fs0 rfl (by decide),
   C7_remove_idempotent.2.2.2 cfgRW "KEY1" fs0 rfl (by decide),
   by decide⟩
